import Mathlib

/-!
Shallow embedding of src/app.py (the load_data pipeline of the
MSFT FY25 research dashboard).

The only computational core of the program is load_data (lines 41-72):
it resolves a fixed PDF path, extracts the text of the first two pages,
runs three regex searches, parses the captures as floats with literal
defaults, computes two rounded ratios and one difference, and returns
either a six-field record or an error string (the except clause at
line 71 turns every exception raised inside the try block into str(e)).

Modelling decisions:
* Python floats are modelled as exact rationals.  All decimal values
  appearing in the program and the claims are small and exactly
  decimal, and the claims are stated in decimal terms (no rounding,
  rounded to two decimals), so exact rational arithmetic is the
  faithful reading.
* round(x, 2) is the Python round-half-to-even rounding at two decimal
  places, modelled by roundHalfEven below.
* The regex character classes \s and \d are modelled over their ASCII
  subsets (the texts of interest are ASCII).
* Python raises ZeroDivisionError("float division by zero") on
  op / rev when rev == 0.0, and float(s) raises
  ValueError("could not convert string to float: ...") when the
  captured string (made of digits and dots) has two dots or no digit.
  Both exceptions are caught by the generic handler at line 71 and
  surface as their str(e) message; the embedding returns the same
  strings.
* File existence and pdfplumber text acquisition are environment
  effects; load_data is parameterised by the existence of the file and
  by the outcome of text acquisition.
-/

/-- ASCII subset of the regex class backslash-s. -/
def isWs (c : Char) : Bool :=
  c = ' ' || c = '\t' || c = '\n' || c = '\r' || c = '\x0b' || c = '\x0c'

/-- The regex class of ASCII digits and the dot. -/
def isDigitOrDot (c : Char) : Bool :=
  c.isDigit || c = '.'

/-- Match a literal string at the head of the input, returning the rest. -/
def dropLit : List Char → List Char → Option (List Char)
  | [], cs => some cs
  | _ :: _, [] => none
  | l :: ls, c :: cs => if c = l then dropLit ls cs else none

/-- Greedy whitespace star: drop the maximal whitespace run.  The
following pattern element is always a literal starting with a
non-whitespace character, so maximal munch is the exact regex
semantics. -/
def skipWs (cs : List Char) : List Char :=
  cs.dropWhile isWs

/-- A dollar sign followed by the greedy nonempty capture of digits and
dots, anchored at the head of the input.  Nothing follows the capture
group in any of the three patterns, so maximal munch is exact. -/
def dollarNum (cs : List Char) : Option (List Char) :=
  match cs with
  | '$' :: rest =>
    let num := rest.takeWhile isDigitOrDot
    if num.isEmpty then none else some num
  | _ => none

/-- The lazy tail of the operating-income pattern: scan forward (never
across a newline, since the regex dot excludes newline) for the first
dollar sign that is followed by at least one digit or dot, and capture
the maximal digit-and-dot run after it.  A dollar sign not followed by
a digit or dot is consumed by the lazy star and scanning continues,
which is exactly the regex backtracking behaviour. -/
def scanDollarNum : List Char → Option (List Char)
  | [] => none
  | c :: cs =>
    if c = '\n' then none
    else
      match dollarNum (c :: cs) with
      | some num => some num
      | none => scanDollarNum cs

/-- Try a matcher at every start position, leftmost first
(the semantics of re.search). -/
def searchFrom {α : Type} (f : List Char → Option α) : List Char → Option α
  | [] => f []
  | c :: cs =>
    match f (c :: cs) with
    | some r => some r
    | none => searchFrom f cs

/-- The revenue pattern of app.py line 55, anchored at the head:
the word Revenue, optional whitespace, the word was, optional
whitespace, a dollar sign and the numeral capture. -/
def matchRevenueAt (cs : List Char) : Option (List Char) := do
  let cs ← dropLit "Revenue".data cs
  let cs := skipWs cs
  let cs ← dropLit "was".data cs
  let cs := skipWs cs
  dollarNum cs

/-- The operating-income pattern of app.py line 56, anchored at the
head: Operating, optional whitespace, income, optional whitespace,
grew, then the lazy scan for the dollar amount. -/
def matchOpAt (cs : List Char) : Option (List Char) := do
  let cs ← dropLit "Operating".data cs
  let cs := skipWs cs
  let cs ← dropLit "income".data cs
  let cs := skipWs cs
  let cs ← dropLit "grew".data cs
  scanDollarNum cs

/-- The Azure pattern of app.py line 57, anchored at the head:
Azure, optional whitespace, surpassed, optional whitespace, a dollar
sign and the numeral capture. -/
def matchAzureAt (cs : List Char) : Option (List Char) := do
  let cs ← dropLit "Azure".data cs
  let cs := skipWs cs
  let cs ← dropLit "surpassed".data cs
  let cs := skipWs cs
  dollarNum cs

/-- Group 1 of the re.search for the revenue pattern (app.py line 55). -/
def rev_match (cs : List Char) : Option (List Char) :=
  searchFrom matchRevenueAt cs

/-- Group 1 of the re.search for the operating-income pattern
(app.py line 56). -/
def op_match (cs : List Char) : Option (List Char) :=
  searchFrom matchOpAt cs

/-- Group 1 of the re.search for the Azure pattern (app.py line 57). -/
def az_match (cs : List Char) : Option (List Char) :=
  searchFrom matchAzureAt cs

/-- Value of a digit list read in base 10. -/
def digitsToNat (cs : List Char) : ℕ :=
  cs.foldl (fun n c => n * 10 + (c.toNat - 48)) 0

/-- Python float(s) on a nonempty string over digits and dots:
it succeeds iff the string has at most one dot and at least one digit,
and then denotes integer part, dot, fraction part read in decimal. -/
def parseDec (cs : List Char) : Option ℚ :=
  if cs.count '.' ≤ 1 ∧ cs.any Char.isDigit = true then
    let ip := cs.takeWhile (fun c => c ≠ '.')
    let fp := (cs.dropWhile (fun c => c ≠ '.')).drop 1
    some ((digitsToNat ip : ℚ) + (digitsToNat fp : ℚ) / (10 : ℚ) ^ fp.length)
  else none

/-- Python float of a capture, with the exception text the Python float
builtin raises on an unparsable capture (caught at app.py line 71 and
returned as str(e)). -/
def floatOfCapture (cs : List Char) : Except String ℚ :=
  match parseDec cs with
  | some q => Except.ok q
  | none =>
    Except.error ("could not convert string to float: \x27" ++ String.mk cs ++ "\x27")

/-- The conditional expression pattern of app.py lines 59-61: parse the
capture when the search matched, else use the literal default; parsing
can raise. -/
def fieldVal (m : Option (List Char)) (default : ℚ) : Except String ℚ :=
  match m with
  | some cap => floatOfCapture cap
  | none => Except.ok default

/-- Line 59: rev is the parsed revenue capture, defaulting to 281.7. -/
def revVal (cs : List Char) : Except String ℚ :=
  fieldVal (rev_match cs) 281.7

/-- Line 60: op is the parsed operating-income capture, defaulting to
128.5. -/
def opVal (cs : List Char) : Except String ℚ :=
  fieldVal (op_match cs) 128.5

/-- Line 61: az is the parsed Azure capture, defaulting to 75.0. -/
def azVal (cs : List Char) : Except String ℚ :=
  fieldVal (az_match cs) 75.0

/-- The three base figures in program order (lines 59-61); the first
exception raised wins, as in Python. -/
def baseVals (cs : List Char) : Except String (ℚ × ℚ × ℚ) :=
  match revVal cs with
  | Except.error e => Except.error e
  | Except.ok rev =>
    match opVal cs with
    | Except.error e => Except.error e
    | Except.ok op =>
      match azVal cs with
      | Except.error e => Except.error e
      | Except.ok az => Except.ok (rev, op, az)

/-- Round-half-to-even to an integer (the Python round tie rule). -/
def roundHalfEven (x : ℚ) : ℤ :=
  if x - ⌊x⌋ < 1 / 2 then ⌊x⌋
  else if 1 / 2 < x - ⌊x⌋ then ⌊x⌋ + 1
  else if ⌊x⌋ % 2 = 0 then ⌊x⌋ else ⌊x⌋ + 1

/-- Python round(x, 2). -/
def round2 (x : ℚ) : ℚ :=
  (roundHalfEven (x * 100) : ℚ) / 100

/-- The dictionary returned at app.py lines 66-70. -/
structure MetricsRecord where
  Revenue : ℚ
  Income : ℚ
  Azure : ℚ
  Margin : ℚ
  AzureMix : ℚ
  Other : ℚ
deriving DecidableEq, Repr

/-- The regex-extraction-and-derivation core of load_data (app.py
lines 55-70): three searches, parse-or-default, margin and Azure-mix
rounded to two decimals, and the unrounded difference.  When rev is
zero the division at line 63 raises ZeroDivisionError, which the
handler at line 71 returns as its message. -/
def extract (text : String) : Except String MetricsRecord :=
  match baseVals text.data with
  | Except.error e => Except.error e
  | Except.ok (rev, op, az) =>
    if rev = 0 then Except.error "float division by zero"
    else
      Except.ok
        { Revenue := rev, Income := op, Azure := az
          Margin := round2 (op / rev * 100)
          AzureMix := round2 (az / rev * 100)
          Other := rev - az }

/-- Embedding of load_data (app.py lines 42-72): if the fixed file path
does not exist, return the fixed message (lines 48-49); otherwise text
acquisition may itself raise (caught at line 71); on acquired text run
the extraction core.  File existence and the acquisition outcome are
parameters of the embedding since they are environment effects. -/
def load_data (fileExists : Bool) (acquired : Except String String) :
    Except String MetricsRecord :=
  if fileExists = false then Except.error "Data Source Pending"
  else
    match acquired with
    | Except.error e => Except.error e
    | Except.ok text => extract text

/-- The record produced from the three literal defaults. -/
def defaultsRec : MetricsRecord :=
  { Revenue := 281.7, Income := 128.5, Azure := 75.0
    Margin := 45.62, AzureMix := 26.62, Other := 206.7 }

/- ### Helper lemmas -/

lemma floatOfCapture_ok (cap : List Char) (q : ℚ) (hp : parseDec cap = some q) :
    floatOfCapture cap = Except.ok q := by
  unfold floatOfCapture
  rw [hp]

lemma fieldVal_of_match (m : Option (List Char)) (cap : List Char) (d q : ℚ)
    (hm : m = some cap) (hp : parseDec cap = some q) :
    fieldVal m d = Except.ok q := by
  subst hm
  show floatOfCapture cap = Except.ok q
  exact floatOfCapture_ok cap q hp

lemma fieldVal_of_none (m : Option (List Char)) (d : ℚ) (hm : m = none) :
    fieldVal m d = Except.ok d := by
  subst hm
  rfl

lemma revVal_of_match (cs cap : List Char) (q : ℚ) (hm : rev_match cs = some cap)
    (hp : parseDec cap = some q) : revVal cs = Except.ok q :=
  fieldVal_of_match _ cap _ q hm hp

lemma opVal_of_match (cs cap : List Char) (q : ℚ) (hm : op_match cs = some cap)
    (hp : parseDec cap = some q) : opVal cs = Except.ok q :=
  fieldVal_of_match _ cap _ q hm hp

lemma azVal_of_match (cs cap : List Char) (q : ℚ) (hm : az_match cs = some cap)
    (hp : parseDec cap = some q) : azVal cs = Except.ok q :=
  fieldVal_of_match _ cap _ q hm hp

lemma revVal_default (cs : List Char) (hm : rev_match cs = none) :
    revVal cs = Except.ok 281.7 :=
  fieldVal_of_none _ _ hm

lemma opVal_default (cs : List Char) (hm : op_match cs = none) :
    opVal cs = Except.ok 128.5 :=
  fieldVal_of_none _ _ hm

lemma azVal_default (cs : List Char) (hm : az_match cs = none) :
    azVal cs = Except.ok 75.0 :=
  fieldVal_of_none _ _ hm

lemma baseVals_eq_ok (cs : List Char) (r o a : ℚ) (hr : revVal cs = Except.ok r)
    (ho : opVal cs = Except.ok o) (ha : azVal cs = Except.ok a) :
    baseVals cs = Except.ok (r, o, a) := by
  unfold baseVals
  rw [hr, ho, ha]

lemma baseVals_ok_inv (cs : List Char) (r o a : ℚ)
    (h : baseVals cs = Except.ok (r, o, a)) :
    revVal cs = Except.ok r ∧ opVal cs = Except.ok o ∧ azVal cs = Except.ok a := by
  unfold baseVals at h
  cases hr : revVal cs with
  | error e => rw [hr] at h; simp at h
  | ok r0 =>
    rw [hr] at h
    cases ho : opVal cs with
    | error e => rw [ho] at h; simp at h
    | ok o0 =>
      rw [ho] at h
      cases ha : azVal cs with
      | error e => rw [ha] at h; simp at h
      | ok a0 =>
        rw [ha] at h
        simp only [Except.ok.injEq, Prod.mk.injEq] at h
        obtain ⟨h1, h2, h3⟩ := h
        subst h1; subst h2; subst h3
        exact ⟨rfl, rfl, rfl⟩

lemma extract_eq_ok (text : String) (r o a : ℚ)
    (hb : baseVals text.data = Except.ok (r, o, a)) (hnz : r ≠ 0) :
    extract text =
      Except.ok
        { Revenue := r, Income := o, Azure := a
          Margin := round2 (o / r * 100)
          AzureMix := round2 (a / r * 100)
          Other := r - a } := by
  unfold extract
  rw [hb]
  simp [hnz]

lemma extract_eq_err_zero (text : String) (r o a : ℚ)
    (hb : baseVals text.data = Except.ok (r, o, a)) (hz : r = 0) :
    extract text = Except.error "float division by zero" := by
  unfold extract
  rw [hb]
  simp [hz]

lemma extract_ok_inv (text : String) (rec : MetricsRecord)
    (h : extract text = Except.ok rec) :
    ∃ r o a, baseVals text.data = Except.ok (r, o, a) ∧ r ≠ 0 ∧
      rec =
        { Revenue := r, Income := o, Azure := a
          Margin := round2 (o / r * 100)
          AzureMix := round2 (a / r * 100)
          Other := r - a } := by
  unfold extract at h
  cases hb : baseVals text.data with
  | error e => rw [hb] at h; simp at h
  | ok v =>
    obtain ⟨r, o, a⟩ := v
    rw [hb] at h
    by_cases hz : r = 0
    · simp [hz] at h
    · simp only [hz, if_false, Except.ok.injEq] at h
      exact ⟨r, o, a, rfl, hz, h.symm⟩

lemma parseDec_nonneg (cs : List Char) (q : ℚ) (h : parseDec cs = some q) :
    0 ≤ q := by
  rw [parseDec] at h
  split at h
  · simp only [Option.some.injEq] at h
    subst h
    positivity
  · exact absurd h (by simp)

lemma fieldVal_nonneg (m : Option (List Char)) (d q : ℚ) (hd : 0 ≤ d)
    (h : fieldVal m d = Except.ok q) : 0 ≤ q := by
  cases m with
  | none =>
    simp only [fieldVal, Except.ok.injEq] at h
    rwa [← h]
  | some cap =>
    cases hp : parseDec cap with
    | none =>
      rw [show fieldVal (some cap) d = floatOfCapture cap from rfl] at h
      unfold floatOfCapture at h
      rw [hp] at h
      simp at h
    | some q0 =>
      rw [show fieldVal (some cap) d = floatOfCapture cap from rfl,
        floatOfCapture_ok cap q0 hp] at h
      simp only [Except.ok.injEq] at h
      rw [← h]
      exact parseDec_nonneg cap q0 hp

/-- Evaluation scheme for parseDec on a concrete capture: supply the
integer and fraction parts and their values. -/
lemma parseDec_eval (cs ip fp : List Char) (i f n : ℕ)
    (hc : cs.count '.' ≤ 1 ∧ cs.any Char.isDigit = true)
    (hip : cs.takeWhile (fun c => c ≠ '.') = ip)
    (hfp : (cs.dropWhile (fun c => c ≠ '.')).drop 1 = fp)
    (hi : digitsToNat ip = i) (hf : digitsToNat fp = f) (hn : fp.length = n) :
    parseDec cs = some ((i : ℚ) + (f : ℚ) / (10 : ℚ) ^ n) := by
  rw [parseDec, if_pos hc]
  dsimp only
  rw [hip, hfp, hi, hf, hn]

lemma parse_2817 : parseDec "281.7".data = some (281.7 : ℚ) := by
  rw [parseDec_eval "281.7".data "281".data "7".data 281 7 1 (by decide)
    (by decide) (by decide) (by decide) (by decide) (by decide)]
  norm_num

lemma parse_1285 : parseDec "128.5".data = some (128.5 : ℚ) := by
  rw [parseDec_eval "128.5".data "128".data "5".data 128 5 1 (by decide)
    (by decide) (by decide) (by decide) (by decide) (by decide)]
  norm_num

lemma parse_750 : parseDec "75.0".data = some (75.0 : ℚ) := by
  rw [parseDec_eval "75.0".data "75".data "0".data 75 0 1 (by decide)
    (by decide) (by decide) (by decide) (by decide) (by decide)]
  norm_num

lemma parse_0 : parseDec "0".data = some (0 : ℚ) := by
  rw [parseDec_eval "0".data "0".data [] 0 0 0 (by decide)
    (by decide) (by decide) (by decide) (by decide) (by decide)]
  norm_num

lemma parse_1 : parseDec "1".data = some (1 : ℚ) := by
  rw [parseDec_eval "1".data "1".data [] 1 0 0 (by decide)
    (by decide) (by decide) (by decide) (by decide) (by decide)]
  norm_num

lemma parse_2 : parseDec "2".data = some (2 : ℚ) := by
  rw [parseDec_eval "2".data "2".data [] 2 0 0 (by decide)
    (by decide) (by decide) (by decide) (by decide) (by decide)]
  norm_num

lemma parse_3 : parseDec "3".data = some (3 : ℚ) := by
  rw [parseDec_eval "3".data "3".data [] 3 0 0 (by decide)
    (by decide) (by decide) (by decide) (by decide) (by decide)]
  norm_num

lemma parse_5 : parseDec "5".data = some (5 : ℚ) := by
  rw [parseDec_eval "5".data "5".data [] 5 0 0 (by decide)
    (by decide) (by decide) (by decide) (by decide) (by decide)]
  norm_num

lemma parse_05 : parseDec "0.5".data = some (0.5 : ℚ) := by
  rw [parseDec_eval "0.5".data "0".data "5".data 0 5 1 (by decide)
    (by decide) (by decide) (by decide) (by decide) (by decide)]
  norm_num

lemma parse_500 : parseDec "500".data = some (500 : ℚ) := by
  rw [parseDec_eval "500".data "500".data [] 500 0 0 (by decide)
    (by decide) (by decide) (by decide) (by decide) (by decide)]
  norm_num

/-- The extraction on any text where none of the patterns match. -/
lemma extract_no_match (text : String)
    (hr : rev_match text.data = none)
    (ho : op_match text.data = none)
    (ha : az_match text.data = none) :
    extract text = Except.ok defaultsRec := by
  have hb : baseVals text.data = Except.ok (281.7, 128.5, 75.0) :=
    baseVals_eq_ok _ _ _ _ (revVal_default _ hr) (opVal_default _ ho)
      (azVal_default _ ha)
  rw [extract_eq_ok text 281.7 128.5 75.0 hb (by norm_num)]
  simp only [Except.ok.injEq, defaultsRec, MetricsRecord.mk.injEq]
  norm_num [round2, roundHalfEven]

/-- The extraction on the empty text. -/
lemma extract_empty : extract "" = Except.ok defaultsRec :=
  extract_no_match "" (by decide) (by decide) (by decide)

/-- The record produced when the Azure capture 500 exceeds the default
revenue 281.7. -/
def overRec : MetricsRecord :=
  { Revenue := 281.7, Income := 128.5, Azure := 500
    Margin := 45.62, AzureMix := 177.49, Other := -218.3 }

/-- The extraction on a text whose only pattern is an Azure capture
larger than the default revenue. -/
lemma extract_azure_overshoot :
    extract "Azure surpassed $500" = Except.ok overRec := by
  have hb : baseVals ("Azure surpassed $500" : String).data =
      Except.ok (281.7, 128.5, 500) :=
    baseVals_eq_ok _ _ _ _ (revVal_default _ (by decide))
      (opVal_default _ (by decide))
      (azVal_of_match _ "500".data _ (by decide) parse_500)
  rw [extract_eq_ok _ 281.7 128.5 500 hb (by norm_num)]
  simp only [Except.ok.injEq, overRec, MetricsRecord.mk.injEq]
  norm_num [round2, roundHalfEven]

/-- A text containing all three phrase patterns whose revenue capture
is the valid decimal 0. -/
def zeroRevenueText : String :=
  "Revenue was $0 Operating income grew by $5 Azure surpassed $3"

/-- The scenario text of the specification (section 8, property 6). -/
def scenarioText : String :=
  "Revenue was $281.7 ... Operating income grew ... $128.5 ... Azure surpassed $75.0"

/- ### Claim theorems -/

/-- C1 counterexample: `zeroRevenueText` contains all three phrase
patterns with valid decimal captures (0, 5 and 3), yet `extract`
returns an error instead of a record, because the captured revenue 0
makes the margin division raise. -/
theorem extract_captures_no_record_counterexample :
    rev_match zeroRevenueText.data = some "0".data ∧
    op_match zeroRevenueText.data = some "5".data ∧
    az_match zeroRevenueText.data = some "3".data ∧
    parseDec "0".data = some 0 ∧
    parseDec "5".data = some 5 ∧
    parseDec "3".data = some 3 ∧
    extract zeroRevenueText = Except.error "float division by zero" := by
  refine ⟨by decide, by decide, by decide, parse_0, parse_5, parse_3, ?_⟩
  exact extract_eq_err_zero _ 0 5 3
    (baseVals_eq_ok _ _ _ _ (revVal_of_match _ _ _ (by decide) parse_0)
      (opVal_of_match _ _ _ (by decide) parse_5)
      (azVal_of_match _ _ _ (by decide) parse_3)) rfl

/-- C1 (amended): for every input text in which all three patterns match
with valid decimal captures and the captured revenue is nonzero,
`extract` returns a record whose Revenue, Income and Azure fields equal
the captured values exactly, with no rounding applied to these three
base figures. -/
theorem extract_returns_captured_values (text : String) (sr so sa : List Char)
    (r o a : ℚ)
    (hr : rev_match text.data = some sr) (ho : op_match text.data = some so)
    (ha : az_match text.data = some sa)
    (pr : parseDec sr = some r) (po : parseDec so = some o)
    (pa : parseDec sa = some a) (hnz : r ≠ 0) :
    extract text =
      Except.ok
        { Revenue := r, Income := o, Azure := a
          Margin := round2 (o / r * 100)
          AzureMix := round2 (a / r * 100)
          Other := r - a } :=
  extract_eq_ok text r o a
    (baseVals_eq_ok _ _ _ _ (revVal_of_match _ _ _ hr pr)
      (opVal_of_match _ _ _ ho po) (azVal_of_match _ _ _ ha pa)) hnz

/-- C1 witness: a concrete text with captures 2, 1 and 0.5. -/
theorem extract_returns_captured_values_witness :
    extract "Revenue was $2 Operating income grew to $1 Azure surpassed $0.5" =
      Except.ok
        { Revenue := 2, Income := 1, Azure := 0.5
          Margin := round2 (1 / 2 * 100)
          AzureMix := round2 (0.5 / 2 * 100)
          Other := 2 - 0.5 } :=
  extract_returns_captured_values _ "2".data "1".data "0.5".data 2 1 0.5
    (by decide) (by decide) (by decide) parse_2 parse_1 parse_05 (by norm_num)

/-- C2: for every input text in which none of the three patterns match,
`extract` substitutes the literal defaults Revenue 281.7, Income 128.5
and Azure 75.0, giving the full defaults record. -/
theorem extract_defaults (text : String)
    (hr : rev_match text.data = none) (ho : op_match text.data = none)
    (ha : az_match text.data = none) :
    extract text =
      Except.ok
        { Revenue := 281.7, Income := 128.5, Azure := 75.0
          Margin := 45.62, AzureMix := 26.62, Other := 206.7 } :=
  extract_no_match text hr ho ha

/-- C2 witness: the empty text matches no pattern and yields the full
defaults record. -/
theorem extract_defaults_witness :
    extract "" =
      Except.ok
        { Revenue := 281.7, Income := 128.5, Azure := 75.0
          Margin := 45.62, AzureMix := 26.62, Other := 206.7 } :=
  extract_defaults "" (by decide) (by decide) (by decide)

/-- C3: every success record of `extract` has Margin equal to
Income / Revenue × 100 rounded to two decimals and AzureMix equal to
Azure / Revenue × 100 rounded to two decimals. -/
theorem extract_ratios_rounded (text : String) (rec : MetricsRecord)
    (h : extract text = Except.ok rec) :
    rec.Margin = round2 (rec.Income / rec.Revenue * 100) ∧
    rec.AzureMix = round2 (rec.Azure / rec.Revenue * 100) := by
  obtain ⟨r, o, a, _, _, hrec⟩ := extract_ok_inv text rec h
  subst hrec
  exact ⟨rfl, rfl⟩

/-- C3 witness: the defaults record obtained from the empty text. -/
theorem extract_ratios_rounded_witness :
    defaultsRec.Margin = round2 (defaultsRec.Income / defaultsRec.Revenue * 100) ∧
    defaultsRec.AzureMix = round2 (defaultsRec.Azure / defaultsRec.Revenue * 100) :=
  extract_ratios_rounded "" defaultsRec extract_empty

/-- C4: every success record of `extract` has Other equal to
Revenue − Azure exactly, with no rounding and no clamping. -/
theorem extract_other_unrounded (text : String) (rec : MetricsRecord)
    (h : extract text = Except.ok rec) :
    rec.Other = rec.Revenue - rec.Azure := by
  obtain ⟨r, o, a, _, _, hrec⟩ := extract_ok_inv text rec h
  subst hrec
  rfl

/-- C4 witness: a record with Azure 500 above Revenue 281.7, whose
Other field is the exact negative difference. -/
theorem extract_other_unrounded_witness :
    overRec.Other = overRec.Revenue - overRec.Azure ∧ overRec.Other < 0 :=
  ⟨extract_other_unrounded "Azure surpassed $500" overRec extract_azure_overshoot,
    by norm_num [overRec]⟩

/-- C5 counterexample: the text "Revenue was $0" is acquired
successfully, yet the pipeline returns an error, so text acquisition is
not the only failure path. -/
theorem load_data_extract_error_counterexample :
    load_data true (Except.ok "Revenue was $0") =
      Except.error "float division by zero" := by
  show extract "Revenue was $0" = Except.error "float division by zero"
  exact extract_eq_err_zero _ 0 128.5 75.0
    (baseVals_eq_ok _ _ _ _ (revVal_of_match _ _ _ (by decide) parse_0)
      (opVal_default _ (by decide)) (azVal_default _ (by decide))) rfl

/-- C5 (amended): extraction itself can fail, when a capture does not
parse as a float or when the obtained revenue is zero; the result is
still all-or-nothing: `extract` returns a complete record exactly when
all three base values are obtained and the revenue is nonzero, and a
single error value otherwise. -/
theorem extract_all_or_nothing (text : String) :
    (∃ rec, extract text = Except.ok rec) ↔
      ∃ r o a, baseVals text.data = Except.ok (r, o, a) ∧ r ≠ 0 := by
  constructor
  · rintro ⟨rec, h⟩
    obtain ⟨r, o, a, hb, hnz, _⟩ := extract_ok_inv text rec h
    exact ⟨r, o, a, hb, hnz⟩
  · rintro ⟨r, o, a, hb, hnz⟩
    exact ⟨_, extract_eq_ok text r o a hb hnz⟩

/-- C6: when the input file path does not exist, the pipeline returns
the error "Data Source Pending" whatever the acquisition outcome would
have been. -/
theorem load_data_missing_file (acquired : Except String String) :
    load_data false acquired = Except.error "Data Source Pending" := rfl

/-- C7: on the scenario text the extraction returns exactly the record
with Revenue 281.7, Income 128.5, Azure 75.0, Margin 45.62,
AzureMix 26.62 and Other 206.7. -/
theorem extract_scenario_text :
    extract scenarioText =
      Except.ok
        { Revenue := 281.7, Income := 128.5, Azure := 75.0
          Margin := 45.62, AzureMix := 26.62, Other := 206.7 } := by
  have hb : baseVals scenarioText.data = Except.ok (281.7, 128.5, 75.0) :=
    baseVals_eq_ok _ _ _ _
      (revVal_of_match _ "281.7".data _ (by decide) parse_2817)
      (opVal_of_match _ "128.5".data _ (by decide) parse_1285)
      (azVal_of_match _ "75.0".data _ (by decide) parse_750)
  rw [extract_eq_ok _ 281.7 128.5 75.0 hb (by norm_num)]
  simp only [Except.ok.injEq, MetricsRecord.mk.injEq]
  norm_num [round2, roundHalfEven]

/-- C8: extraction is deterministic and pure; in the embedding it is a
function of the text alone, so identical texts yield identical
results. -/
theorem extract_deterministic (t1 t2 : String) (h : t1 = t2) :
    extract t1 = extract t2 := by
  rw [h]

/-- C8 witness: two calls on the same concrete text agree. -/
theorem extract_deterministic_witness :
    extract "Revenue was $281.7" = extract "Revenue was $281.7" :=
  extract_deterministic "Revenue was $281.7" "Revenue was $281.7" rfl

/-- C9: every success record of `extract` has nonnegative Revenue,
Income and Azure, since the numeral capture cannot contain a sign and
the defaults are positive. -/
theorem extract_base_fields_nonneg (text : String) (rec : MetricsRecord)
    (h : extract text = Except.ok rec) :
    0 ≤ rec.Revenue ∧ 0 ≤ rec.Income ∧ 0 ≤ rec.Azure := by
  obtain ⟨r, o, a, hb, _, hrec⟩ := extract_ok_inv text rec h
  obtain ⟨hr, ho, ha⟩ := baseVals_ok_inv _ r o a hb
  subst hrec
  exact ⟨fieldVal_nonneg _ _ _ (by norm_num) hr,
    fieldVal_nonneg _ _ _ (by norm_num) ho,
    fieldVal_nonneg _ _ _ (by norm_num) ha⟩

/-- C9 witness: the defaults record obtained from the empty text. -/
theorem extract_base_fields_nonneg_witness :
    0 ≤ defaultsRec.Revenue ∧ 0 ≤ defaultsRec.Income ∧ 0 ≤ defaultsRec.Azure :=
  extract_base_fields_nonneg "" defaultsRec extract_empty

/-- C10: when the revenue pattern captures the value 0 and the other two
figures are obtained, the pipeline neither returns a record nor crashes:
the division by zero in the margin computation surfaces as the error
whose message is the exception text "float division by zero". -/
theorem extract_zero_revenue_division_error (text : String) (cap : List Char)
    (o a : ℚ)
    (hm : rev_match text.data = some cap) (hp : parseDec cap = some 0)
    (ho : opVal text.data = Except.ok o) (ha : azVal text.data = Except.ok a) :
    extract text = Except.error "float division by zero" :=
  extract_eq_err_zero text 0 o a
    (baseVals_eq_ok _ _ _ _ (revVal_of_match _ _ _ hm hp) ho ha) rfl

/-- C10 witness: the text "Revenue was $0" (other figures defaulted). -/
theorem extract_zero_revenue_division_error_witness :
    extract "Revenue was $0" = Except.error "float division by zero" :=
  extract_zero_revenue_division_error "Revenue was $0" "0".data 128.5 75.0
    (by decide) parse_0 (opVal_default _ (by decide)) (azVal_default _ (by decide))
